import Mathlib

/-!
Verification of the tsconfig parsing library (src/src/lib.rs) against its
natural-language specification.

The development shallowly embeds the whole parsing pipeline of `parse_str`:
the trailing-comma regex pass, the comment-stripping pass, a strict JSON
structural parser standing for `serde_json`, and the serde-derive style
decoding of the `TsConfig` schema (field-name matching, unknown-field
tolerance, duplicate-field rejection, enum vocabularies, untagged and
externally tagged enums).  All definitions are executable, so concrete
documents can be evaluated inside theorems.
-/

namespace Tsconfig

/-- JSON values as produced by a strict structural parse.  Object member
lists keep source order and duplicates; numbers are modelled as integers
(the only numeric shapes the schema and the checked documents use). -/
inductive Json where
  | null : Json
  | bool (b : Bool) : Json
  | num (n : Int) : Json
  | str (s : String) : Json
  | arr (xs : List Json) : Json
  | obj (kvs : List (String × Json)) : Json

/-- Terminal errors of the pipeline: `malformed` stands for a strict-JSON
syntax error from `serde_json`, the remaining constructors for the serde
decode errors (invalid type, unknown enum variant, duplicate field,
missing field, untagged-enum mismatch). -/
inductive ParseError where
  | malformed : ParseError
  | invalidType : ParseError
  | unknownVariant : ParseError
  | duplicateField (f : String) : ParseError
  | missingField (f : String) : ParseError
  | untaggedNoMatch : ParseError

/-- True exactly when a pipeline result is an error. -/
def isErr {α : Type} : Except ParseError α → Bool
  | .error _ => true
  | .ok _ => false

/-- JSON insignificant whitespace (RFC 8259, as accepted by `serde_json`). -/
def jsonWs (c : Char) : Bool :=
  c = ' ' || c = '\t' || c = '\n' || c = '\r'

/-- Whitespace matched by the regex class in `,(?P<valid>\s*})`
(ASCII portion of the regex crate's `\s`). -/
def regexWs (c : Char) : Bool :=
  c = ' ' || c = '\t' || c = '\n' || c = '\r' || c = '\x0b' || c = '\x0c'

/-- Fuelled worker for the trailing-comma pass; the fuel (always ample, see
`removeTrailingCommas`) only serves to make the recursion structural. -/
def rtcAux : Nat → List Char → List Char
  | 0, l => l
  | _ + 1, [] => []
  | fuel + 1, c :: rest =>
    if c = ',' then
      match rest.dropWhile regexWs with
      | '}' :: r2 => rest.takeWhile regexWs ++ '}' :: rtcAux fuel r2
      | _ => ',' :: rtcAux fuel rest
    else c :: rtcAux fuel rest

/-- The first preprocessing pass of `parse_str` (src/src/lib.rs lines 9-11):
`re.replace_all(json, "$valid")` for the regex `,(?P<valid>\s*})`, i.e. a
left-to-right, non-overlapping removal of every comma that is followed by
optional whitespace and a closing brace.  It runs on the raw text, before
comment stripping, and is not string-aware.  Each recursive step of the
worker consumes at least one character, so fuel `length + 1` never runs
out. -/
def removeTrailingCommas (l : List Char) : List Char :=
  rtcAux (l.length + 1) l

/-- Scanner states of the comment stripper: outside any string or comment,
inside a string literal, inside a `//` line comment, inside a `/* */`
block comment. -/
inductive StripState where
  | top : StripState
  | str : StripState
  | line : StripState
  | block : StripState

/-- Comment stripping.  Modelled from the spec: the
`json_comments::StripComments` reader wrapper used on line 12 of
src/src/lib.rs is an external crate whose code is not under src/; per spec
section 4.1 it removes `//` line comments and `/* ... */` block comments
(replacing them with whitespace, as the crate does, so that positions are
preserved), tracks string/quote state so that it never strips inside a
quoted string literal (escape sequences pass both characters through),
and cannot itself fail. -/
def stripFrom : StripState → List Char → List Char
  | _, [] => []
  | .top, '"' :: rest => '"' :: stripFrom .str rest
  | .top, '/' :: '/' :: rest => ' ' :: ' ' :: stripFrom .line rest
  | .top, '/' :: '*' :: rest => ' ' :: ' ' :: stripFrom .block rest
  | .top, c :: rest => c :: stripFrom .top rest
  | .str, '"' :: rest => '"' :: stripFrom .top rest
  | .str, '\\' :: c :: rest => '\\' :: c :: stripFrom .str rest
  | .str, c :: rest => c :: stripFrom .str rest
  | .line, '\n' :: rest => '\n' :: stripFrom .top rest
  | .line, _ :: rest => ' ' :: stripFrom .line rest
  | .block, '*' :: '/' :: rest => ' ' :: ' ' :: stripFrom .top rest
  | .block, '\n' :: rest => '\n' :: stripFrom .block rest
  | .block, _ :: rest => ' ' :: stripFrom .block rest

/-- The second preprocessing pass of `parse_str`: strip comments from the
whole text, starting outside any string. -/
def stripComments (l : List Char) : List Char :=
  stripFrom .top l

/-- Skip JSON whitespace. -/
def skipWs : List Char → List Char
  | [] => []
  | c :: rest => if jsonWs c then skipWs rest else c :: rest

/-- Decode a single-character JSON string escape. -/
def escChar : Char → Option Char
  | '"' => some '"'
  | '\\' => some '\\'
  | '/' => some '/'
  | 'b' => some '\x08'
  | 'f' => some '\x0c'
  | 'n' => some '\n'
  | 'r' => some '\r'
  | 't' => some '\t'
  | _ => none

/-- Parse the body of a JSON string literal (the opening quote already
consumed), handling the single-character escapes; returns the decoded
characters and the remaining input.  Raw control characters are rejected,
as in strict JSON. -/
def parseStrChars : List Char → Option (List Char × List Char)
  | [] => none
  | '"' :: rest => some ([], rest)
  | '\\' :: e :: rest =>
    (escChar e).bind
      (fun c => (parseStrChars rest).map (fun p => (c :: p.1, p.2)))
  | c :: rest =>
    if c.toNat < 32 then none
    else (parseStrChars rest).map (fun p => (c :: p.1, p.2))

/-- Parse a nonempty run of decimal digits. -/
def parseDigits (l : List Char) : Option (Nat × List Char) :=
  let ds := l.takeWhile Char.isDigit
  if ds.isEmpty then none
  else some (ds.foldl (fun acc c => 10 * acc + (c.toNat - 48)) 0, l.dropWhile Char.isDigit)

/-- What the recursive-descent parser is asked to produce next: a value,
the members of an object (after `{`, first key not yet read), or the
elements of an array (after `[`, first element not yet read). -/
inductive PMode where
  | value : PMode
  | members : PMode
  | elems : PMode

/-- Result of one recursive-descent step, matching the three modes. -/
inductive PRes where
  | value (j : Json) : PRes
  | members (kvs : List (String × Json)) : PRes
  | elems (xs : List Json) : PRes

/-- Strict JSON recursive-descent parser standing for `serde_json`
(single fuelled function so that the recursion is structural; the fuel in
`parseJson` is ample for any input).  Trailing commas are rejected both in
objects (a `}` directly after the comma) and in arrays (a `]` directly
after the comma), as `serde_json` does. -/
def parseCore : Nat → PMode → List Char → Option (PRes × List Char)
  | 0, _, _ => none
  | fuel + 1, .value, l =>
    (match skipWs l with
    | 't' :: 'r' :: 'u' :: 'e' :: r => some (.value (Json.bool true), r)
    | 'f' :: 'a' :: 'l' :: 's' :: 'e' :: r => some (.value (Json.bool false), r)
    | 'n' :: 'u' :: 'l' :: 'l' :: r => some (.value Json.null, r)
    | '"' :: r => (parseStrChars r).map (fun p => (.value (Json.str (String.mk p.1)), p.2))
    | '{' :: r =>
      (match skipWs r with
        | '}' :: r2 => some (.value (Json.obj []), r2)
        | r2 =>
          (parseCore fuel .members r2).bind (fun p =>
            match p.1 with
            | .members kvs => some (.value (Json.obj kvs), p.2)
            | _ => none))
    | '[' :: r =>
      (match skipWs r with
        | ']' :: r2 => some (.value (Json.arr []), r2)
        | r2 =>
          (parseCore fuel .elems r2).bind (fun p =>
            match p.1 with
            | .elems xs => some (.value (Json.arr xs), p.2)
            | _ => none))
    | '-' :: r => (parseDigits r).map (fun p => (.value (Json.num (-(p.1 : Int))), p.2))
    | c :: r =>
      if c.isDigit then
        (parseDigits (c :: r)).map (fun p => (.value (Json.num (p.1 : Int)), p.2))
      else none
    | [] => none)
  | fuel + 1, .members, l =>
    (match l with
    | '"' :: r =>
      (parseStrChars r).bind (fun pk =>
        match skipWs pk.2 with
        | ':' :: r2 =>
          (parseCore fuel .value r2).bind (fun pv =>
            match pv.1 with
            | .value v =>
              (match skipWs pv.2 with
              | ',' :: r3 =>
                (parseCore fuel .members (skipWs r3)).bind (fun pm =>
                  match pm.1 with
                  | .members kvs => some (.members ((String.mk pk.1, v) :: kvs), pm.2)
                  | _ => none)
              | '}' :: r3 => some (.members [(String.mk pk.1, v)], r3)
              | _ => none)
            | _ => none)
        | _ => none)
    | _ => none)
  | fuel + 1, .elems, l =>
    (parseCore fuel .value l).bind (fun pv =>
      match pv.1 with
      | .value v =>
        (match skipWs pv.2 with
        | ',' :: r2 =>
          (parseCore fuel .elems r2).bind (fun pe =>
            match pe.1 with
            | .elems xs => some (.elems (v :: xs), pe.2)
            | _ => none)
        | ']' :: r2 => some (.elems [v], r2)
        | _ => none)
      | _ => none)

/-- Parse a complete document: one JSON value, then only trailing
whitespace, as `serde_json::from_reader` requires. -/
def parseJson (l : List Char) : Option Json :=
  match parseCore (2 * l.length + 4) .value l with
  | some (.value j, rest) => if skipWs rest = [] then some j else none
  | _ => none


/-- Module-resolution strategies (src/src/lib.rs lines 430-436): the derived
deserializer accepts exactly the renamed spellings `node` and `classic`. -/
inductive ModuleResolutionMode where
  | Node : ModuleResolutionMode
  | Classic : ModuleResolutionMode

/-- JSX modes (src/src/lib.rs lines 438-446): the derived deserializer with
`rename_all = "kebab-case"` accepts exactly the kebab-case variant names. -/
inductive Jsx where
  | React : Jsx
  | ReactJsx : Jsx
  | ReactJsxdev : Jsx
  | ReactNative : Jsx
  | Preserve : Jsx

/-- Target language levels (src/src/lib.rs lines 448-461). -/
inductive Target where
  | Es3 : Target
  | Es5 : Target
  | Es2015 : Target
  | Es6 : Target
  | Es2016 : Target
  | Es7 : Target
  | Es2017 : Target
  | Es2018 : Target
  | Es2019 : Target
  | Es2020 : Target
  | EsNext : Target

/-- Library identifiers (src/src/lib.rs lines 493-536). -/
inductive Lib where
  | Es5 | Es2015 | Es6 | Es2016 | Es7 | Es2017 | Es2018 | Es2019 | Es2020
  | EsNext | Dom | WebWorker | ScriptHost | DomIterable
  | Es2015Core | Es2015Generator | Es2015Iterable | Es2015Promise
  | Es2015Proxy | Es2015Reflect | Es2015Symbol | Es2015SymbolWellKnown
  | Es2016ArrayInclude | Es2017Object | Es2017Intl | Es2017SharedMemory
  | Es2017String | Es2017TypedArrays | Es2018Intl | Es2018Promise
  | Es2018RegExp | Es2019Array | Es2019Object | Es2019String | Es2019Symbol
  | Es2020String | Es2020SymbolWellknown | EsNextAsyncIterable | EsNextArray
  | EsNextIntl | EsNextSymbol

/-- Module kinds (src/src/lib.rs lines 600-611). -/
inductive Module where
  | CommonJs : Module
  | Es6 : Module
  | Es2015 : Module
  | Es2020 : Module
  | None : Module
  | Umd : Module
  | Amd : Module
  | System : Module
  | EsNext : Module

/-- Decode a JSON boolean (serde `bool`). -/
def decodeBool : Json → Except ParseError Bool
  | .bool b => .ok b
  | _ => .error .invalidType

/-- Decode a JSON string (serde `String`). -/
def decodeString : Json → Except ParseError String
  | .str s => .ok s
  | _ => .error .invalidType

/-- Decode `Option<T>`: JSON null is `none`, otherwise the inner decode. -/
def decodeNullable {α : Type} (f : Json → Except ParseError α) :
    Json → Except ParseError (Option α)
  | .null => .ok none
  | j => (f j).map some

/-- Decode `Vec<T>`: a JSON array whose elements all decode. -/
def decodeArr {α : Type} (f : Json → Except ParseError α) :
    Json → Except ParseError (List α)
  | .arr xs => xs.mapM f
  | _ => .error .invalidType

/-- Decode `Vec<String>`. -/
def decodeStringList : Json → Except ParseError (List String) :=
  decodeArr decodeString

/-- Decode a `u32` (serde rejects non-integers and out-of-range values). -/
def decodeU32 : Json → Except ParseError Nat
  | .num n => if 0 ≤ n ∧ n < 4294967296 then .ok n.toNat else .error .invalidType
  | _ => .error .invalidType

/-- Decode `HashMap<String, Vec<String>>` for the `paths` field, keeping the
entries as the ordered list of inserts (the hash map itself is unordered;
no claim depends on duplicate-key handling of this field). -/
def decodePaths : Json → Except ParseError (List (String × List String))
  | .obj kvs => kvs.mapM (fun kv => (decodeStringList kv.2).map (fun v => (kv.1, v)))
  | _ => .error .invalidType

/-- ASCII uppercasing (Rust's `to_uppercase`; the vocabulary spellings are
all ASCII, where Unicode and ASCII uppercasing agree), written over the
character list so that it evaluates definitionally. -/
def toUpperAscii (s : String) : String :=
  String.mk (s.data.map Char.toUpper)

/-- The custom `Deserialize` of `Target` (src/src/lib.rs lines 462-491):
uppercase the raw string, then look it up in the fixed table.  The table is
transcribed exactly; note it has no `ES3` row. -/
def decodeTarget : Json → Except ParseError Target
  | .str s =>
    let u := toUpperAscii s
    if u = "ES5" then .ok .Es5
    else if u = "ES2015" then .ok .Es2015
    else if u = "ES6" then .ok .Es6
    else if u = "ES2016" then .ok .Es2016
    else if u = "ES7" then .ok .Es7
    else if u = "ES2017" then .ok .Es2017
    else if u = "ES2018" then .ok .Es2018
    else if u = "ES2019" then .ok .Es2019
    else if u = "ES2020" then .ok .Es2020
    else if u = "ESNEXT" then .ok .EsNext
    else .error .unknownVariant
  | _ => .error .invalidType

/-- The custom `Deserialize` of `Lib` (src/src/lib.rs lines 538-598):
uppercase the raw string, then look it up in the fixed table.  The table is
transcribed exactly as written in the source, including its irregular rows
(`"ESNext"`, `"ES2015.ARRAY.INCLUDE"`, `"ES2015.OBJECT"`, `"ES2017INTL"`,
`"ES2015.SHAREDMEMORY"`). -/
def decodeLib : Json → Except ParseError Lib
  | .str s =>
    let u := toUpperAscii s
    if u = "ES5" then .ok .Es5
    else if u = "ES2015" then .ok .Es2015
    else if u = "ES6" then .ok .Es6
    else if u = "ES2016" then .ok .Es2016
    else if u = "ES7" then .ok .Es7
    else if u = "ES2017" then .ok .Es2017
    else if u = "ES2018" then .ok .Es2018
    else if u = "ES2019" then .ok .Es2019
    else if u = "ES2020" then .ok .Es2020
    else if u = "ESNext" then .ok .EsNext
    else if u = "DOM" then .ok .Dom
    else if u = "WEBWORKER" then .ok .WebWorker
    else if u = "SCRIPTHOST" then .ok .ScriptHost
    else if u = "DOM.ITERABLE" then .ok .DomIterable
    else if u = "ES2015.CORE" then .ok .Es2015Core
    else if u = "ES2015.GENERATOR" then .ok .Es2015Generator
    else if u = "ES2015.ITERABLE" then .ok .Es2015Iterable
    else if u = "ES2015.PROMISE" then .ok .Es2015Promise
    else if u = "ES2015.PROXY" then .ok .Es2015Proxy
    else if u = "ES2015.REFLECT" then .ok .Es2015Reflect
    else if u = "ES2015.SYMBOL" then .ok .Es2015Symbol
    else if u = "ES2015.SYMBOL.WELLKNOWN" then .ok .Es2015SymbolWellKnown
    else if u = "ES2015.ARRAY.INCLUDE" then .ok .Es2016ArrayInclude
    else if u = "ES2015.OBJECT" then .ok .Es2017Object
    else if u = "ES2017INTL" then .ok .Es2017Intl
    else if u = "ES2015.SHAREDMEMORY" then .ok .Es2017SharedMemory
    else if u = "ES2017.STRING" then .ok .Es2017String
    else if u = "ES2017.TYPEDARRAYS" then .ok .Es2017TypedArrays
    else if u = "ES2018.INTL" then .ok .Es2018Intl
    else if u = "ES2018.PROMISE" then .ok .Es2018Promise
    else if u = "ES2018.REGEXP" then .ok .Es2018RegExp
    else if u = "ES2019.ARRAY" then .ok .Es2019Array
    else if u = "ES2019.OBJECT" then .ok .Es2019Object
    else if u = "ES2019.STRING" then .ok .Es2019String
    else if u = "ES2019.SYMBOL" then .ok .Es2019Symbol
    else if u = "ES2020.STRING" then .ok .Es2020String
    else if u = "ES2020.SYMBOL.WELLKNOWN" then .ok .Es2020SymbolWellknown
    else if u = "ESNEXT.ASYNCITERABLE" then .ok .EsNextAsyncIterable
    else if u = "ESNEXT.ARRAY" then .ok .EsNextArray
    else if u = "ESNEXT.INTL" then .ok .EsNextIntl
    else if u = "ESNEXT.SYMBOL" then .ok .EsNextSymbol
    else .error .unknownVariant
  | _ => .error .invalidType

/-- The custom `Deserialize` of `Module` (src/src/lib.rs lines 613-641):
uppercase the raw string, then look it up in the fixed table. -/
def decodeModule : Json → Except ParseError Module
  | .str s =>
    let u := toUpperAscii s
    if u = "COMMONJS" then .ok .CommonJs
    else if u = "ESNEXT" then .ok .EsNext
    else if u = "ES6" then .ok .Es6
    else if u = "ES2015" then .ok .Es2015
    else if u = "ES2020" then .ok .Es2020
    else if u = "NONE" then .ok .None
    else if u = "UMD" then .ok .Umd
    else if u = "AMD" then .ok .Amd
    else if u = "SYSTEM" then .ok .System
    else .error .unknownVariant
  | _ => .error .invalidType

/-- The derived `Deserialize` of `Jsx` with `rename_all = "kebab-case"`:
exact, case-sensitive match of the kebab-case variant names. -/
def decodeJsx : Json → Except ParseError Jsx
  | .str s =>
    if s = "react" then .ok .React
    else if s = "react-jsx" then .ok .ReactJsx
    else if s = "react-jsxdev" then .ok .ReactJsxdev
    else if s = "react-native" then .ok .ReactNative
    else if s = "preserve" then .ok .Preserve
    else .error .unknownVariant
  | _ => .error .invalidType

/-- The derived `Deserialize` of `ModuleResolutionMode` with per-variant
renames: exact, case-sensitive match of `node` and `classic`. -/
def decodeModuleResolutionMode : Json → Except ParseError ModuleResolutionMode
  | .str s =>
    if s = "node" then .ok .Node
    else if s = "classic" then .ok .Classic
    else .error .unknownVariant
  | _ => .error .invalidType

/-- A project reference entry (src/src/lib.rs lines 24-28). -/
structure Reference where
  path : String
  prepend : Option Bool

/-- The `references` union (src/src/lib.rs lines 17-22): an untagged enum,
either a boolean or a list of reference entries. -/
inductive References where
  | Bool (b : Bool) : References
  | References (refs : List Reference) : References

/-- The `typeAcquisition` union (src/src/lib.rs lines 30-39).  Note the
source derives a plain (externally tagged) `Deserialize`, with no
`#[serde(untagged)]` attribute. -/
inductive TypeAcquisition where
  | Bool (b : Bool) : TypeAcquisition
  | Object (enable : Bool) («include» : Option (List String))
      (exclude : Option (List String))
      (disable_filename_based_type_acquisition : Option Bool) : TypeAcquisition

/-- serde-derive style decoding of one JSON object into a struct:
entries are processed in source order; `fieldFn` maps an external key to
the action for the corresponding known field (`none` for unknown keys,
which are silently skipped); a known key seen a second time aborts with a
duplicate-field error before its value is decoded, exactly as the derived
`visit_map` loop does. -/
def runFields {σ : Type} (fieldFn : String → Option (σ → Json → Except ParseError σ)) :
    σ → List String → List (String × Json) → Except ParseError σ
  | acc, _, [] => .ok acc
  | acc, seen, (k, v) :: rest =>
    match fieldFn k with
    | none => runFields fieldFn acc seen rest
    | some f =>
      if k ∈ seen then .error (.duplicateField k)
      else
        match f acc v with
        | .error e => .error e
        | .ok acc2 => runFields fieldFn acc2 (k :: seen) rest

/-- Field accumulator for decoding a `Reference` (its `path` field is
required, so presence must be tracked). -/
structure RefAcc where
  path : Option String
  prepend : Option Bool

/-- Known fields of `Reference` (no serde rename attributes, so the
external keys are the Rust field names). -/
def refFieldFn (k : String) : Option (RefAcc → Json → Except ParseError RefAcc) :=
  match k with
  | "path" => some (fun acc v => (decodeString v).map (fun s => { acc with path := some s }))
  | "prepend" => some (fun acc v => (decodeNullable decodeBool v).map (fun b => { acc with prepend := b }))
  | _ => none

/-- Decode one `Reference` object; a missing `path` is a decode error. -/
def decodeReference (j : Json) : Except ParseError Reference :=
  match j with
  | .obj kvs =>
    (runFields refFieldFn { path := none, prepend := none } [] kvs).bind
      (fun acc =>
        match acc.path with
        | some p => .ok { path := p, prepend := acc.prepend }
        | none => .error (.missingField ("path")))
  | _ => .error .invalidType

/-- Decode the untagged `References` enum: serde tries `Bool(bool)` first,
then `References(Vec<Reference>)`; if neither shape fits, the untagged
decode fails as a whole. -/
def decodeReferences (j : Json) : Except ParseError References :=
  match j with
  | .bool b => .ok (.Bool b)
  | _ =>
    match decodeArr decodeReference j with
    | .ok rs => .ok (.References rs)
    | .error _ => .error .untaggedNoMatch

/-- Field accumulator for the `Object` struct variant of `TypeAcquisition`
(`enable` is required). -/
structure TAAcc where
  enable : Option Bool
  inc : Option (List String)
  exc : Option (List String)
  dfbta : Option Bool

/-- Known fields of the `Object` struct variant of `TypeAcquisition`
(no rename attributes: external keys are the snake_case field names). -/
def taFieldFn (k : String) : Option (TAAcc → Json → Except ParseError TAAcc) :=
  match k with
  | "enable" => some (fun acc v => (decodeBool v).map (fun b => { acc with enable := some b }))
  | "include" => some (fun acc v => (decodeNullable decodeStringList v).map (fun x => { acc with inc := x }))
  | "exclude" => some (fun acc v => (decodeNullable decodeStringList v).map (fun x => { acc with exc := x }))
  | "disable_filename_based_type_acquisition" => some (fun acc v => (decodeNullable decodeBool v).map (fun x => { acc with dfbta := x }))
  | _ => none

/-- Decode the `Object` struct variant of `TypeAcquisition`. -/
def decodeTypeAcquisitionObject (j : Json) : Except ParseError TypeAcquisition :=
  match j with
  | .obj kvs =>
    (runFields taFieldFn { enable := none, inc := none, exc := none, dfbta := none } [] kvs).bind
      (fun acc =>
        match acc.enable with
        | some e => .ok (.Object e acc.inc acc.exc acc.dfbta)
        | none => .error (.missingField ("enable")))
  | _ => .error .invalidType

/-- Decode `TypeAcquisition`.  The source derives a plain `Deserialize`
(no `untagged`), so serde expects the *externally tagged* representation:
a single-entry JSON object whose key is the variant name `Bool` or
`Object`.  Any other shape - in particular a bare boolean - is an
invalid-type or unknown-variant error. -/
def decodeTypeAcquisition (j : Json) : Except ParseError TypeAcquisition :=
  match j with
  | .obj ((k, v) :: rest) =>
    if k = "Bool" then
      (decodeBool v).bind (fun b =>
        if rest.isEmpty then .ok (.Bool b) else .error .invalidType)
    else if k = "Object" then
      (decodeTypeAcquisitionObject v).bind (fun t =>
        if rest.isEmpty then .ok t else .error .invalidType)
    else .error .unknownVariant
  | _ => .error .invalidType

/-- The options block (src/src/lib.rs lines 64-428), one field per Rust
field, all optional.  The struct has **no** `#[serde(rename_all)]`
attribute, so the external keys are the snake_case Rust field names,
except `emit_bom`, which carries `#[serde(rename = "emitBOM")]`. -/
structure CompilerOptions where
  allow_js : Option Bool
  check_js : Option Bool
  composite : Option Bool
  declaration : Option Bool
  declaration_map : Option Bool
  downlevel_iteration : Option Bool
  import_helpers : Option Bool
  incremental : Option Bool
  isolated_modules : Option Bool
  jsx : Option Jsx
  lib : Option (List Lib)
  module : Option Module
  no_emit : Option Bool
  out_dir : Option String
  out_file : Option String
  remove_comments : Option Bool
  root_dir : Option String
  source_map : Option Bool
  target : Option Target
  ts_build_info_file : Option String
  always_strict : Option Bool
  no_implicit_any : Option Bool
  no_implicit_this : Option Bool
  strict : Option Bool
  strict_bind_call_apply : Option Bool
  strict_function_types : Option Bool
  strict_null_checks : Option Bool
  strict_property_initialization : Option Bool
  allow_synthetic_default_imports : Option Bool
  allow_umd_global_access : Option Bool
  base_url : Option Bool
  es_module_interop : Option Bool
  module_resolution : Option ModuleResolutionMode
  paths : Option (List (String × List String))
  preserve_symlinks : Option Bool
  root_dirs : Option (List String)
  type_roots : Option (List String)
  types : Option (List String)
  inline_source_map : Option Bool
  inline_sources : Option Bool
  map_root : Option String
  source_root : Option String
  no_fallthrough_cases_in_switch : Option Bool
  no_implicit_returns : Option Bool
  no_property_access_from_index_signature : Option Bool
  no_unchecked_indexed_access : Option Bool
  no_unused_locals : Option Bool
  emit_decorator_metadata : Option Bool
  experimental_decorators : Option Bool
  allow_unreachable_code : Option Bool
  allow_unused_labels : Option Bool
  assume_changes_only_affect_direct_dependencies : Option Bool
  charset : Option String
  declaration_dir : Option String
  diagnostics : Option Bool
  disable_referenced_project_load : Option Bool
  disable_size_limit : Option Bool
  disable_solution_searching : Option Bool
  disable_source_of_project_reference_redirect : Option Bool
  emit_bom : Option Bool
  emit_declaration_only : Option Bool
  explain_files : Option Bool
  extended_diagnostics : Option Bool
  force_consistent_casing_in_file_names : Option Bool
  generate_cpu_profile : Option Bool
  imports_not_used_as_values : Option String
  jsx_factory : Option String
  jsx_fragment_factory : Option String
  jsx_import_source : Option String
  keyof_strings_only : Option Bool
  list_emitted_files : Option Bool
  list_files : Option Bool
  max_node_module_js_depth : Option Nat
  no_emit_helpers : Option Bool
  no_emit_on_error : Option Bool
  no_error_truncation : Option Bool
  no_implicit_use_strict : Option Bool
  no_lib : Option Bool
  no_resolve : Option Bool
  no_strict_generic_checks : Option Bool
  out : Option Bool
  preserve_const_enums : Option Bool
  react_namespace : Option String
  resolve_json_module : Option Bool
  skip_default_lib_check : Option Bool
  skip_lib_check : Option Bool
  strip_internal : Option Bool

/-- An options block with every field unspecified. -/
def emptyCompilerOptions : CompilerOptions where
  allow_js := none
  check_js := none
  composite := none
  declaration := none
  declaration_map := none
  downlevel_iteration := none
  import_helpers := none
  incremental := none
  isolated_modules := none
  jsx := none
  lib := none
  module := none
  no_emit := none
  out_dir := none
  out_file := none
  remove_comments := none
  root_dir := none
  source_map := none
  target := none
  ts_build_info_file := none
  always_strict := none
  no_implicit_any := none
  no_implicit_this := none
  strict := none
  strict_bind_call_apply := none
  strict_function_types := none
  strict_null_checks := none
  strict_property_initialization := none
  allow_synthetic_default_imports := none
  allow_umd_global_access := none
  base_url := none
  es_module_interop := none
  module_resolution := none
  paths := none
  preserve_symlinks := none
  root_dirs := none
  type_roots := none
  types := none
  inline_source_map := none
  inline_sources := none
  map_root := none
  source_root := none
  no_fallthrough_cases_in_switch := none
  no_implicit_returns := none
  no_property_access_from_index_signature := none
  no_unchecked_indexed_access := none
  no_unused_locals := none
  emit_decorator_metadata := none
  experimental_decorators := none
  allow_unreachable_code := none
  allow_unused_labels := none
  assume_changes_only_affect_direct_dependencies := none
  charset := none
  declaration_dir := none
  diagnostics := none
  disable_referenced_project_load := none
  disable_size_limit := none
  disable_solution_searching := none
  disable_source_of_project_reference_redirect := none
  emit_bom := none
  emit_declaration_only := none
  explain_files := none
  extended_diagnostics := none
  force_consistent_casing_in_file_names := none
  generate_cpu_profile := none
  imports_not_used_as_values := none
  jsx_factory := none
  jsx_fragment_factory := none
  jsx_import_source := none
  keyof_strings_only := none
  list_emitted_files := none
  list_files := none
  max_node_module_js_depth := none
  no_emit_helpers := none
  no_emit_on_error := none
  no_error_truncation := none
  no_implicit_use_strict := none
  no_lib := none
  no_resolve := none
  no_strict_generic_checks := none
  out := none
  preserve_const_enums := none
  react_namespace := none
  resolve_json_module := none
  skip_default_lib_check := none
  skip_lib_check := none
  strip_internal := none

/-- Known external keys of `CompilerOptions` and their field actions,
exactly as the derived deserializer matches them (case-sensitive;
snake_case names, plus the single renamed key `emitBOM`). -/
def coFieldFn (k : String) : Option (CompilerOptions → Json → Except ParseError CompilerOptions) :=
  match k with
  | "allow_js" => some (fun acc v => (decodeNullable decodeBool v).map (fun x => { acc with allow_js := x }))
  | "check_js" => some (fun acc v => (decodeNullable decodeBool v).map (fun x => { acc with check_js := x }))
  | "composite" => some (fun acc v => (decodeNullable decodeBool v).map (fun x => { acc with composite := x }))
  | "declaration" => some (fun acc v => (decodeNullable decodeBool v).map (fun x => { acc with declaration := x }))
  | "declaration_map" => some (fun acc v => (decodeNullable decodeBool v).map (fun x => { acc with declaration_map := x }))
  | "downlevel_iteration" => some (fun acc v => (decodeNullable decodeBool v).map (fun x => { acc with downlevel_iteration := x }))
  | "import_helpers" => some (fun acc v => (decodeNullable decodeBool v).map (fun x => { acc with import_helpers := x }))
  | "incremental" => some (fun acc v => (decodeNullable decodeBool v).map (fun x => { acc with incremental := x }))
  | "isolated_modules" => some (fun acc v => (decodeNullable decodeBool v).map (fun x => { acc with isolated_modules := x }))
  | "jsx" => some (fun acc v => (decodeNullable decodeJsx v).map (fun x => { acc with jsx := x }))
  | "lib" => some (fun acc v => (decodeNullable (decodeArr decodeLib) v).map (fun x => { acc with lib := x }))
  | "module" => some (fun acc v => (decodeNullable decodeModule v).map (fun x => { acc with module := x }))
  | "no_emit" => some (fun acc v => (decodeNullable decodeBool v).map (fun x => { acc with no_emit := x }))
  | "out_dir" => some (fun acc v => (decodeNullable decodeString v).map (fun x => { acc with out_dir := x }))
  | "out_file" => some (fun acc v => (decodeNullable decodeString v).map (fun x => { acc with out_file := x }))
  | "remove_comments" => some (fun acc v => (decodeNullable decodeBool v).map (fun x => { acc with remove_comments := x }))
  | "root_dir" => some (fun acc v => (decodeNullable decodeString v).map (fun x => { acc with root_dir := x }))
  | "source_map" => some (fun acc v => (decodeNullable decodeBool v).map (fun x => { acc with source_map := x }))
  | "target" => some (fun acc v => (decodeNullable decodeTarget v).map (fun x => { acc with target := x }))
  | "ts_build_info_file" => some (fun acc v => (decodeNullable decodeString v).map (fun x => { acc with ts_build_info_file := x }))
  | "always_strict" => some (fun acc v => (decodeNullable decodeBool v).map (fun x => { acc with always_strict := x }))
  | "no_implicit_any" => some (fun acc v => (decodeNullable decodeBool v).map (fun x => { acc with no_implicit_any := x }))
  | "no_implicit_this" => some (fun acc v => (decodeNullable decodeBool v).map (fun x => { acc with no_implicit_this := x }))
  | "strict" => some (fun acc v => (decodeNullable decodeBool v).map (fun x => { acc with strict := x }))
  | "strict_bind_call_apply" => some (fun acc v => (decodeNullable decodeBool v).map (fun x => { acc with strict_bind_call_apply := x }))
  | "strict_function_types" => some (fun acc v => (decodeNullable decodeBool v).map (fun x => { acc with strict_function_types := x }))
  | "strict_null_checks" => some (fun acc v => (decodeNullable decodeBool v).map (fun x => { acc with strict_null_checks := x }))
  | "strict_property_initialization" => some (fun acc v => (decodeNullable decodeBool v).map (fun x => { acc with strict_property_initialization := x }))
  | "allow_synthetic_default_imports" => some (fun acc v => (decodeNullable decodeBool v).map (fun x => { acc with allow_synthetic_default_imports := x }))
  | "allow_umd_global_access" => some (fun acc v => (decodeNullable decodeBool v).map (fun x => { acc with allow_umd_global_access := x }))
  | "base_url" => some (fun acc v => (decodeNullable decodeBool v).map (fun x => { acc with base_url := x }))
  | "es_module_interop" => some (fun acc v => (decodeNullable decodeBool v).map (fun x => { acc with es_module_interop := x }))
  | "module_resolution" => some (fun acc v => (decodeNullable decodeModuleResolutionMode v).map (fun x => { acc with module_resolution := x }))
  | "paths" => some (fun acc v => (decodeNullable decodePaths v).map (fun x => { acc with paths := x }))
  | "preserve_symlinks" => some (fun acc v => (decodeNullable decodeBool v).map (fun x => { acc with preserve_symlinks := x }))
  | "root_dirs" => some (fun acc v => (decodeNullable decodeStringList v).map (fun x => { acc with root_dirs := x }))
  | "type_roots" => some (fun acc v => (decodeNullable decodeStringList v).map (fun x => { acc with type_roots := x }))
  | "types" => some (fun acc v => (decodeNullable decodeStringList v).map (fun x => { acc with types := x }))
  | "inline_source_map" => some (fun acc v => (decodeNullable decodeBool v).map (fun x => { acc with inline_source_map := x }))
  | "inline_sources" => some (fun acc v => (decodeNullable decodeBool v).map (fun x => { acc with inline_sources := x }))
  | "map_root" => some (fun acc v => (decodeNullable decodeString v).map (fun x => { acc with map_root := x }))
  | "source_root" => some (fun acc v => (decodeNullable decodeString v).map (fun x => { acc with source_root := x }))
  | "no_fallthrough_cases_in_switch" => some (fun acc v => (decodeNullable decodeBool v).map (fun x => { acc with no_fallthrough_cases_in_switch := x }))
  | "no_implicit_returns" => some (fun acc v => (decodeNullable decodeBool v).map (fun x => { acc with no_implicit_returns := x }))
  | "no_property_access_from_index_signature" => some (fun acc v => (decodeNullable decodeBool v).map (fun x => { acc with no_property_access_from_index_signature := x }))
  | "no_unchecked_indexed_access" => some (fun acc v => (decodeNullable decodeBool v).map (fun x => { acc with no_unchecked_indexed_access := x }))
  | "no_unused_locals" => some (fun acc v => (decodeNullable decodeBool v).map (fun x => { acc with no_unused_locals := x }))
  | "emit_decorator_metadata" => some (fun acc v => (decodeNullable decodeBool v).map (fun x => { acc with emit_decorator_metadata := x }))
  | "experimental_decorators" => some (fun acc v => (decodeNullable decodeBool v).map (fun x => { acc with experimental_decorators := x }))
  | "allow_unreachable_code" => some (fun acc v => (decodeNullable decodeBool v).map (fun x => { acc with allow_unreachable_code := x }))
  | "allow_unused_labels" => some (fun acc v => (decodeNullable decodeBool v).map (fun x => { acc with allow_unused_labels := x }))
  | "assume_changes_only_affect_direct_dependencies" => some (fun acc v => (decodeNullable decodeBool v).map (fun x => { acc with assume_changes_only_affect_direct_dependencies := x }))
  | "charset" => some (fun acc v => (decodeNullable decodeString v).map (fun x => { acc with charset := x }))
  | "declaration_dir" => some (fun acc v => (decodeNullable decodeString v).map (fun x => { acc with declaration_dir := x }))
  | "diagnostics" => some (fun acc v => (decodeNullable decodeBool v).map (fun x => { acc with diagnostics := x }))
  | "disable_referenced_project_load" => some (fun acc v => (decodeNullable decodeBool v).map (fun x => { acc with disable_referenced_project_load := x }))
  | "disable_size_limit" => some (fun acc v => (decodeNullable decodeBool v).map (fun x => { acc with disable_size_limit := x }))
  | "disable_solution_searching" => some (fun acc v => (decodeNullable decodeBool v).map (fun x => { acc with disable_solution_searching := x }))
  | "disable_source_of_project_reference_redirect" => some (fun acc v => (decodeNullable decodeBool v).map (fun x => { acc with disable_source_of_project_reference_redirect := x }))
  | "emitBOM" => some (fun acc v => (decodeNullable decodeBool v).map (fun x => { acc with emit_bom := x }))
  | "emit_declaration_only" => some (fun acc v => (decodeNullable decodeBool v).map (fun x => { acc with emit_declaration_only := x }))
  | "explain_files" => some (fun acc v => (decodeNullable decodeBool v).map (fun x => { acc with explain_files := x }))
  | "extended_diagnostics" => some (fun acc v => (decodeNullable decodeBool v).map (fun x => { acc with extended_diagnostics := x }))
  | "force_consistent_casing_in_file_names" => some (fun acc v => (decodeNullable decodeBool v).map (fun x => { acc with force_consistent_casing_in_file_names := x }))
  | "generate_cpu_profile" => some (fun acc v => (decodeNullable decodeBool v).map (fun x => { acc with generate_cpu_profile := x }))
  | "imports_not_used_as_values" => some (fun acc v => (decodeNullable decodeString v).map (fun x => { acc with imports_not_used_as_values := x }))
  | "jsx_factory" => some (fun acc v => (decodeNullable decodeString v).map (fun x => { acc with jsx_factory := x }))
  | "jsx_fragment_factory" => some (fun acc v => (decodeNullable decodeString v).map (fun x => { acc with jsx_fragment_factory := x }))
  | "jsx_import_source" => some (fun acc v => (decodeNullable decodeString v).map (fun x => { acc with jsx_import_source := x }))
  | "keyof_strings_only" => some (fun acc v => (decodeNullable decodeBool v).map (fun x => { acc with keyof_strings_only := x }))
  | "list_emitted_files" => some (fun acc v => (decodeNullable decodeBool v).map (fun x => { acc with list_emitted_files := x }))
  | "list_files" => some (fun acc v => (decodeNullable decodeBool v).map (fun x => { acc with list_files := x }))
  | "max_node_module_js_depth" => some (fun acc v => (decodeNullable decodeU32 v).map (fun x => { acc with max_node_module_js_depth := x }))
  | "no_emit_helpers" => some (fun acc v => (decodeNullable decodeBool v).map (fun x => { acc with no_emit_helpers := x }))
  | "no_emit_on_error" => some (fun acc v => (decodeNullable decodeBool v).map (fun x => { acc with no_emit_on_error := x }))
  | "no_error_truncation" => some (fun acc v => (decodeNullable decodeBool v).map (fun x => { acc with no_error_truncation := x }))
  | "no_implicit_use_strict" => some (fun acc v => (decodeNullable decodeBool v).map (fun x => { acc with no_implicit_use_strict := x }))
  | "no_lib" => some (fun acc v => (decodeNullable decodeBool v).map (fun x => { acc with no_lib := x }))
  | "no_resolve" => some (fun acc v => (decodeNullable decodeBool v).map (fun x => { acc with no_resolve := x }))
  | "no_strict_generic_checks" => some (fun acc v => (decodeNullable decodeBool v).map (fun x => { acc with no_strict_generic_checks := x }))
  | "out" => some (fun acc v => (decodeNullable decodeBool v).map (fun x => { acc with out := x }))
  | "preserve_const_enums" => some (fun acc v => (decodeNullable decodeBool v).map (fun x => { acc with preserve_const_enums := x }))
  | "react_namespace" => some (fun acc v => (decodeNullable decodeString v).map (fun x => { acc with react_namespace := x }))
  | "resolve_json_module" => some (fun acc v => (decodeNullable decodeBool v).map (fun x => { acc with resolve_json_module := x }))
  | "skip_default_lib_check" => some (fun acc v => (decodeNullable decodeBool v).map (fun x => { acc with skip_default_lib_check := x }))
  | "skip_lib_check" => some (fun acc v => (decodeNullable decodeBool v).map (fun x => { acc with skip_lib_check := x }))
  | "strip_internal" => some (fun acc v => (decodeNullable decodeBool v).map (fun x => { acc with strip_internal := x }))
  | _ => none

/-- Decode `CompilerOptions` from a JSON object (any other shape is an
invalid-type error). -/
def decodeCompilerOptions : Json → Except ParseError CompilerOptions
  | .obj kvs => runFields coFieldFn emptyCompilerOptions [] kvs
  | _ => .error .invalidType

/-- The top-level document (src/src/lib.rs lines 41-61).  This struct has
`#[serde(rename_all = "camelCase")]`, so its external keys are the
camel-case renderings of the Rust field names. -/
structure TsConfig where
  exclude : Option (List String)
  «extends» : Option String
  files : Option (List String)
  «include» : Option (List String)
  references : Option References
  type_acquisition : Option TypeAcquisition
  compiler_options : Option CompilerOptions

/-- A document with every field unspecified. -/
def emptyTsConfig : TsConfig where
  exclude := none
  «extends» := none
  files := none
  «include» := none
  references := none
  type_acquisition := none
  compiler_options := none

/-- Known external keys of `TsConfig` and their field actions (camel-case,
per the struct's `rename_all` attribute). -/
def tsFieldFn (k : String) : Option (TsConfig → Json → Except ParseError TsConfig) :=
  match k with
  | "exclude" => some (fun acc v => (decodeNullable decodeStringList v).map (fun x => { acc with exclude := x }))
  | "extends" => some (fun acc v => (decodeNullable decodeString v).map (fun x => { acc with «extends» := x }))
  | "files" => some (fun acc v => (decodeNullable decodeStringList v).map (fun x => { acc with files := x }))
  | "include" => some (fun acc v => (decodeNullable decodeStringList v).map (fun x => { acc with «include» := x }))
  | "references" => some (fun acc v => (decodeNullable decodeReferences v).map (fun x => { acc with references := x }))
  | "typeAcquisition" => some (fun acc v => (decodeNullable decodeTypeAcquisition v).map (fun x => { acc with type_acquisition := x }))
  | "compilerOptions" => some (fun acc v => (decodeNullable decodeCompilerOptions v).map (fun x => { acc with compiler_options := x }))
  | _ => none

/-- Decode the top-level `TsConfig` document from a JSON object. -/
def decodeTsConfig : Json → Except ParseError TsConfig
  | .obj kvs => runFields tsFieldFn emptyTsConfig [] kvs
  | _ => .error .invalidType

/-- The public entry point `parse_str` (src/src/lib.rs lines 8-15): first
the trailing-comma regex pass on the raw text, then comment stripping,
then the strict JSON parse and the serde decode into `TsConfig`. -/
def parse_str (s : String) : Except ParseError TsConfig :=
  let canonical := stripComments (removeTrailingCommas s.toList)
  match parseJson canonical with
  | none => .error .malformed
  | some j => decodeTsConfig j

/-- If a known key (one that `fieldFn` recognizes) occurs at least twice in
the remaining entries - or at least once while already recorded as seen -
the serde-style field loop necessarily ends in an error. -/
theorem runFields_dup {σ : Type}
    (fieldFn : String → Option (σ → Json → Except ParseError σ)) (k : String)
    (hk : (fieldFn k).isSome = true) :
    ∀ (l : List (String × Json)) (acc : σ) (seen : List String),
      (2 ≤ (l.map Prod.fst).count k ∨
        (1 ≤ (l.map Prod.fst).count k ∧ k ∈ seen)) →
      isErr (runFields fieldFn acc seen l) = true := by
  intro l
  induction l with
  | nil =>
    intro acc seen h
    simp at h
  | cons hd tl ih =>
    intro acc seen h
    obtain ⟨k1, v1⟩ := hd
    by_cases hk1 : k1 = k
    · subst hk1
      obtain ⟨f, hf⟩ := Option.isSome_iff_exists.mp hk
      rw [runFields, hf]
      by_cases hseen : k1 ∈ seen
      · simp [hseen, isErr]
      · simp only [if_neg hseen]
        cases hfa : f acc v1 with
        | error e => simp [isErr]
        | ok acc2 =>
          apply ih
          right
          constructor
          · have hcount : ((⟨k1, v1⟩ :: tl).map Prod.fst).count k1 =
                (tl.map Prod.fst).count k1 + 1 := by
              simp [List.count_cons]
            rcases h with h | ⟨h, hmem⟩
            · rw [hcount] at h
              omega
            · exact absurd hmem hseen
          · exact List.mem_cons_self k1 seen
    · have hcount : ((⟨k1, v1⟩ :: tl).map Prod.fst).count k =
          (tl.map Prod.fst).count k := by
        simp [List.count_cons, hk1]
      rw [hcount] at h
      cases hf : fieldFn k1 with
      | none =>
        rw [runFields, hf]
        exact ih acc seen h
      | some f =>
        rw [runFields, hf]
        by_cases hseen : k1 ∈ seen
        · simp [hseen, isErr]
        · simp only [if_neg hseen]
          cases hfa : f acc v1 with
          | error e => simp [isErr]
          | ok acc2 =>
            apply ih
            rcases h with h | ⟨h, hmem⟩
            · exact Or.inl h
            · exact Or.inr ⟨h, List.mem_cons_of_mem k1 hmem⟩

/-- Claim C1: the claim says a boolean `typeAcquisition` value decodes to the
boolean-shorthand variant and an object decodes to the structured variant.
In the source, `TypeAcquisition` derives a plain (externally tagged)
`Deserialize` with no `#[serde(untagged)]`, so `parse_str` rejects
`{"typeAcquisition": true}` with an invalid-type error, rejects the
structured object `{"typeAcquisition": {"enable": true}}` with an
unknown-variant error, and only accepts the externally tagged form
`{"typeAcquisition": {"Bool": true}}`. -/
theorem C1_typeAcquisition_externally_tagged :
    parse_str ("\x7b\"typeAcquisition\": true\x7d") = .error .invalidType ∧
    parse_str ("\x7b\"typeAcquisition\": \x7b\"enable\": true\x7d\x7d") = .error .unknownVariant ∧
    parse_str ("\x7b\"typeAcquisition\": \x7b\"Bool\": true\x7d\x7d") =
      .ok { emptyTsConfig with type_acquisition := some (TypeAcquisition.Bool true) } :=
  ⟨rfl, rfl, rfl⟩

/-- Claim C2: the claim says options-block keys are matched against their
camel-case spellings.  In the source, `CompilerOptions` has no
`#[serde(rename_all = "camelCase")]`, so the external keys are the
snake_case field names: the camel-case key `noImplicitAny` is ignored as
unknown (the parse succeeds with the field unspecified), while the
snake_case key `no_implicit_any` decodes into the field; the single
renamed key `emitBOM` works and its snake_case name `emit_bom` is the one
ignored. -/
theorem C2_options_keys_matched_snake_case :
    parse_str ("\x7b\"compilerOptions\":\x7b\"noImplicitAny\":true\x7d\x7d") =
      .ok { emptyTsConfig with compiler_options := some emptyCompilerOptions } ∧
    parse_str ("\x7b\"compilerOptions\":\x7b\"no_implicit_any\":true\x7d\x7d") =
      .ok { emptyTsConfig with
            compiler_options := some ({ emptyCompilerOptions with no_implicit_any := some true }) } ∧
    parse_str ("\x7b\"compilerOptions\":\x7b\"emitBOM\":true\x7d\x7d") =
      .ok { emptyTsConfig with
            compiler_options := some ({ emptyCompilerOptions with emit_bom := some true }) } ∧
    parse_str ("\x7b\"compilerOptions\":\x7b\"emit_bom\":true\x7d\x7d") =
      .ok { emptyTsConfig with compiler_options := some emptyCompilerOptions } :=
  ⟨rfl, rfl, rfl, rfl⟩

/-- Claim C3 counterexample: the claim says `"REACT-JSX"` normalizes to the
React-JSX variant; in fact the derived kebab-case deserializer is
case-sensitive and `parse_str` rejects it with an unknown-variant error. -/
theorem C3_counterexample_jsx_case_variant_rejected :
    parse_str ("\x7b\"compilerOptions\":\x7b\"jsx\":\"REACT-JSX\"\x7d\x7d") =
      .error .unknownVariant :=
  rfl

/-- Claim C3 as amended: the JSX-mode and module-resolution vocabularies are
matched case-sensitively against their exact lowercase/kebab-case
spellings (under the snake_case keys the driver recognizes): `react-jsx`
yields the React-JSX variant while `REACT-JSX` and `React-Jsx` are
unknown-variant errors, and `node` yields the Node strategy while `Node`
is an unknown-variant error. -/
theorem C3_amended_jsx_module_resolution_case_sensitive :
    parse_str ("\x7b\"compilerOptions\":\x7b\"jsx\":\"react-jsx\"\x7d\x7d") =
      .ok { emptyTsConfig with
            compiler_options := some ({ emptyCompilerOptions with jsx := some Jsx.ReactJsx }) } ∧
    parse_str ("\x7b\"compilerOptions\":\x7b\"jsx\":\"REACT-JSX\"\x7d\x7d") = .error .unknownVariant ∧
    parse_str ("\x7b\"compilerOptions\":\x7b\"jsx\":\"React-Jsx\"\x7d\x7d") = .error .unknownVariant ∧
    parse_str ("\x7b\"compilerOptions\":\x7b\"module_resolution\":\"node\"\x7d\x7d") =
      .ok { emptyTsConfig with
            compiler_options := some ({ emptyCompilerOptions with
              module_resolution := some ModuleResolutionMode.Node }) } ∧
    parse_str ("\x7b\"compilerOptions\":\x7b\"module_resolution\":\"Node\"\x7d\x7d") =
      .error .unknownVariant :=
  ⟨rfl, rfl, rfl, rfl, rfl⟩

/-- Claim C4 counterexample: the claim says `{"a":1,/*c*/}` still has its
trailing comma removed and parses successfully; in fact the comma pass runs
before comment stripping, the comment defeats the removal, and the parse
fails with a strict-JSON syntax error. -/
theorem C4_counterexample_comment_defeats_comma_removal :
    parse_str ("\x7b\"a\":1,/*c*/\x7d") = .error .malformed :=
  rfl

/-- Claim C4 as amended: preprocessing removes the narrow trailing comma
first, on the raw text, and strips comments second; a comment sitting
between a trailing comma and its closing brace therefore prevents the
removal and such input fails with a syntax error, while a comma separated
from the brace by whitespace only is removed, and comments elsewhere are
harmless. -/
theorem C4_amended_comma_pass_runs_before_comment_pass :
    parse_str ("\x7b\"a\":1,/*c*/\x7d") = .error .malformed ∧
    parse_str ("\x7b\"a\":1 , \x7d") = .ok emptyTsConfig ∧
    parse_str ("/*c*/\x7b\"a\":1\x7d") = .ok emptyTsConfig :=
  ⟨rfl, rfl, rfl⟩

/-- Claim C5 counterexample: the claim says preprocessing never alters
characters inside quoted string literals, naming in particular a string
consisting of a comma, whitespace and a closing brace; in fact the
trailing-comma regex pass is not string-aware, so the document
`{"extends": ",}"}` decodes with the extends value `"}"` - the comma
written in the string literal has been deleted. -/
theorem C5_counterexample_comma_pass_edits_string_literal :
    parse_str ("\x7b\"extends\": \",\x7d\"\x7d") =
      .ok { emptyTsConfig with «extends» := some ("\x7d") } :=
  rfl

/-- Claim C5 as amended: comment stripping is string-aware, so comment-like
substrings such as `//not-a-comment` inside string literals survive
verbatim; but the trailing-comma pass is not string-aware, so a string
containing a comma followed by whitespace and a closing brace has that
comma deleted. -/
theorem C5_amended_comment_pass_string_safe_comma_pass_not :
    parse_str ("\x7b\"extends\": \"x //not-a-comment\"\x7d") =
      .ok { emptyTsConfig with «extends» := some ("x //not-a-comment") } ∧
    parse_str ("\x7b\"extends\": \"a, \x7db\"\x7d") =
      .ok { emptyTsConfig with «extends» := some ("a \x7db") } :=
  ⟨rfl, rfl⟩

/-- Claim C6: the claim says every library-identifier variant's accepted
spelling is present as a table row, with `esnext`, `ES2016.ARRAY.INCLUDE`,
`ES2017.OBJECT`, `ES2017.INTL` and `ES2017.SHAREDMEMORY` normalizing to
their variants.  In the source table all five lookups fail: the `ESNext`
row is unreachable because the input is uppercased to `ESNEXT` first, and
the other four variants sit behind misspelled rows
(`ES2015.ARRAY.INCLUDE`, `ES2015.OBJECT`, `ES2017INTL`,
`ES2015.SHAREDMEMORY`), as the two positive conjuncts demonstrate. -/
theorem C6_lib_table_rows_misspelled :
    parse_str ("\x7b\"compilerOptions\":\x7b\"lib\":[\"esnext\"]\x7d\x7d") = .error .unknownVariant ∧
    parse_str ("\x7b\"compilerOptions\":\x7b\"lib\":[\"ES2016.ARRAY.INCLUDE\"]\x7d\x7d") =
      .error .unknownVariant ∧
    parse_str ("\x7b\"compilerOptions\":\x7b\"lib\":[\"ES2017.OBJECT\"]\x7d\x7d") =
      .error .unknownVariant ∧
    parse_str ("\x7b\"compilerOptions\":\x7b\"lib\":[\"ES2017.INTL\"]\x7d\x7d") =
      .error .unknownVariant ∧
    parse_str ("\x7b\"compilerOptions\":\x7b\"lib\":[\"ES2017.SHAREDMEMORY\"]\x7d\x7d") =
      .error .unknownVariant ∧
    parse_str ("\x7b\"compilerOptions\":\x7b\"lib\":[\"es2015.array.include\"]\x7d\x7d") =
      .ok { emptyTsConfig with
            compiler_options := some ({ emptyCompilerOptions with
              lib := some [Lib.Es2016ArrayInclude] }) } ∧
    parse_str ("\x7b\"compilerOptions\":\x7b\"lib\":[\"ES2017INTL\"]\x7d\x7d") =
      .ok { emptyTsConfig with
            compiler_options := some ({ emptyCompilerOptions with
              lib := some [Lib.Es2017Intl] }) } :=
  ⟨rfl, rfl, rfl, rfl, rfl, rfl, rfl⟩

/-- Claim C7: the trailing-comma liberty is narrow: `{"a":1,}` parses
successfully; `{"a":[1,2,]}` fails with a strict-JSON syntax error (commas
before `]` are not stripped); and `{"a":1,,}` also fails, because only the
single comma adjacent to the brace is removed. -/
theorem C7_narrow_trailing_comma_liberty :
    parse_str ("\x7b\"a\":1,\x7d") = .ok emptyTsConfig ∧
    parse_str ("\x7b\"a\":[1,2,]\x7d") = .error .malformed ∧
    parse_str ("\x7b\"a\":1,,\x7d") = .error .malformed :=
  ⟨rfl, rfl, rfl⟩

/-- Claim C8: unknown keys at the top level and inside the options block are
silently ignored: the document with the unknown keys `bleep` and
`someNewUnsupportedProperty` parses to exactly the same value as the same
document with those keys removed. -/
theorem C8_unknown_fields_ignored :
    parse_str ("\x7b\"bleep\":true,\"compilerOptions\":\x7b\"someNewUnsupportedProperty\":false\x7d\x7d") =
      .ok { emptyTsConfig with compiler_options := some emptyCompilerOptions } ∧
    parse_str ("\x7b\"compilerOptions\":\x7b\x7d\x7d") =
      .ok { emptyTsConfig with compiler_options := some emptyCompilerOptions } :=
  ⟨rfl, rfl⟩

/-- Claim C9: the `references` union dispatches on shape: a boolean yields
the boolean-shorthand variant; an array of objects yields the structured
variant, with `{"path":"../lib"}` giving one entry with that path and an
unspecified prepend flag; and an entry object without a `path` key is a
decode error. -/
theorem C9_references_union_shape_dispatch :
    parse_str ("\x7b\"references\": true\x7d") =
      .ok { emptyTsConfig with references := some (References.Bool true) } ∧
    parse_str ("\x7b\"references\": [\x7b\"path\":\"../lib\"\x7d]\x7d") =
      .ok { emptyTsConfig with
            references := some (References.References [⟨"../lib", none⟩]) } ∧
    parse_str ("\x7b\"references\": [\x7b\"prepend\":true\x7d]\x7d") =
      .error .untaggedNoMatch :=
  ⟨rfl, rfl, rfl⟩

/-- Claim C10: a known key appearing twice in one JSON object makes the
parse fail rather than keeping either occurrence: any object whose keys
contain `files` twice fails to decode as a document, any object whose keys
contain `jsx` twice fails to decode as an options block, and the two
concrete documents fail with duplicate-field errors. -/
theorem C10_duplicate_known_key_errors :
    (∀ kvs : List (String × Json), 2 ≤ (kvs.map Prod.fst).count ("files") →
      isErr (decodeTsConfig (Json.obj kvs)) = true) ∧
    (∀ kvs : List (String × Json), 2 ≤ (kvs.map Prod.fst).count ("jsx") →
      isErr (decodeCompilerOptions (Json.obj kvs)) = true) ∧
    parse_str ("\x7b\"files\":[\"a\"],\"files\":[\"b\"]\x7d") =
      .error (.duplicateField ("files")) ∧
    parse_str ("\x7b\"compilerOptions\":\x7b\"jsx\":\"react-jsx\",\"jsx\":\"preserve\"\x7d\x7d") =
      .error (.duplicateField ("jsx")) := by
  refine ⟨?_, ?_, rfl, rfl⟩
  · intro kvs h
    exact runFields_dup tsFieldFn ("files") rfl kvs emptyTsConfig [] (Or.inl h)
  · intro kvs h
    exact runFields_dup coFieldFn ("jsx") rfl kvs emptyCompilerOptions [] (Or.inl h)

/-- Witness for C10: the duplicate-key theorem applied to concrete objects
with two `files` keys and two `jsx` keys. -/
theorem C10_duplicate_known_key_errors_witness :
    isErr (decodeTsConfig (Json.obj [(("files"), Json.null), (("files"), Json.null)])) = true ∧
    isErr (decodeCompilerOptions (Json.obj [(("jsx"), Json.null), (("jsx"), Json.null)])) = true :=
  ⟨C10_duplicate_known_key_errors.1 _ (by decide),
   C10_duplicate_known_key_errors.2.1 _ (by decide)⟩

end Tsconfig
